import Mathlib

/-!
Verification development for the oathplateCalculator repository.

The Go source (`main.go`, `tui.go`) is shallowly embedded below.  Conventions
of the embedding:

* Go `int64` currency values are modelled as `Int`.  All arithmetic performed
  by the program on prices stays far inside the `int64` range for the domain
  (game prices bounded by the parser's `2b` magnitude), so overflow wrapping
  is not modelled.  Go's `/` on `int64` truncates toward zero, which is
  `Int.tdiv` here.
* `time.Time` / `time.Duration` are modelled as `Int` nanoseconds.  The Go
  zero `time.Time` (`IsZero`) is modelled as the value `0`, matching the
  spec's "zero/absent timestamp means never fetched".  `time.Since(t)` reads
  the wall clock; the clock is made an explicit `now : Int` argument of
  `ComputeReport`.
* `ApplyManualSet` mutates the state through a pointer and returns an
  `error`; it is embedded as a function returning the state after the call
  together with `Option String` (`some msg` = the Go call returned an error).
* The spec names the fields `ingredientA`/`ingredientB`; the source calls
  them `shale`/`shard` (with quantities 2520 and 450, the spec's
  `ingredientQtyA`/`ingredientQtyB`), and names the crafted-item slots
  `armor1`..`armor3` where the spec writes `item1`..`item3`.
-/

/-- `const shardsNeeded = 450` -/
def shardsNeeded : Int := 450

/-- `const shaleNeeded = 2520` -/
def shaleNeeded : Int := 2520

/-- `const cacheTTL = 20 * time.Minute`, in nanoseconds. -/
def cacheTTL : Int := 20 * 60 * 1000000000

/-- `const version = "v1.0.0"` -/
def version : String := "v1.0.0"

/-- Go `math.MinInt64`, returned by `profitForLabel` when the label is absent. -/
def minInt64 : Int := -9223372036854775808

/-- Go struct `PriceTriple { High, Low, Avg int64 }`. -/
structure PriceTriple where
  High : Int
  Low : Int
  Avg : Int
deriving DecidableEq, Inhabited

/-- Go struct `ArmorOption { Name string; ItemID int; Price PriceTriple }`. -/
structure ArmorOption where
  Name : String
  ItemID : Int
  Price : PriceTriple
deriving DecidableEq, Inhabited

/-- Go struct `AppState`: the price snapshot plus provenance. -/
structure AppState where
  Shale : PriceTriple
  Shard : PriceTriple
  Armors : List ArmorOption
  FetchedAt : Int
  Mode : String
deriving DecidableEq, Inhabited

/-- Go struct `ProfitCase`. -/
structure ProfitCase where
  SaleLabel : String
  SalePrice : Int
  TaxPaid : Int
  NetAfterTax : Int
  Profit : Int
deriving DecidableEq, Inhabited

/-- Go struct `ArmorReport`. -/
structure ArmorReport where
  Name : String
  ItemID : Int
  Sale : PriceTriple
  Cases : List ProfitCase
  BestCase : ProfitCase
deriving DecidableEq, Inhabited

/-- Go struct `Report`. -/
structure Report where
  Version : String
  Mode : String
  FetchedAt : Int
  CacheAge : Int
  CacheFresh : Bool
  Shale : PriceTriple
  Shard : PriceTriple
  IngredientCost : PriceTriple
  Armors : List ArmorReport
  BestByAvgProfit : ArmorReport
  BestByHighSale : ArmorReport
deriving DecidableEq, Inhabited

/-- Go `computeCase`: tax is `(salePrice * 2) / 100` with `int64` division
(truncation toward zero, hence `Int.tdiv`). -/
def computeCase (label : String) (salePrice : Int) (ingredientCost : Int) : ProfitCase :=
  let taxPaid := Int.tdiv (salePrice * 2) 100
  let net := salePrice - taxPaid
  let profit := net - ingredientCost
  { SaleLabel := label, SalePrice := salePrice, TaxPaid := taxPaid,
    NetAfterTax := net, Profit := profit }

/-- Go `computeArmor`: builds the three tier cases, then scans `cases[1:]`
keeping the strictly greater profit (first maximum wins). -/
def computeArmor (a : ArmorOption) (ingredientCost : PriceTriple) : ArmorReport :=
  let c0 := computeCase "low" a.Price.Low ingredientCost.Low
  let c1 := computeCase "avg" a.Price.Avg ingredientCost.Avg
  let c2 := computeCase "high" a.Price.High ingredientCost.High
  let best := [c1, c2].foldl (fun b c => if b.Profit < c.Profit then c else b) c0
  { Name := a.Name, ItemID := a.ItemID, Sale := a.Price,
    Cases := [c0, c1, c2], BestCase := best }

/-- Loop body of Go `profitForLabel`. -/
def profitForLabelAux (label : String) : List ProfitCase → Int
  | [] => minInt64
  | c :: rest => if c.SaleLabel = label then c.Profit else profitForLabelAux label rest

/-- Go `profitForLabel`: first case with the given label, `math.MinInt64` if none. -/
def profitForLabel (a : ArmorReport) (label : String) : Int :=
  profitForLabelAux label a.Cases

/-- Loop of Go `pickBestByAvgProfit`: `best`/`bestAvgProfit` accumulator,
replaced when the candidate's avg profit is strictly greater. -/
def pickBestAux (best : ArmorReport) (bestP : Int) : List ArmorReport → ArmorReport
  | [] => best
  | a :: rest =>
    let p := profitForLabel a "avg"
    if bestP < p then pickBestAux a p rest else pickBestAux best bestP rest

/-- Go `pickBestByAvgProfit` (zero `ArmorReport` on the empty list). -/
def pickBestByAvgProfit : List ArmorReport → ArmorReport
  | [] => default
  | a :: rest => pickBestAux a (profitForLabel a "avg") rest

/-- Loop of Go `pickBestByHighSale`. -/
def pickHighAux (best : ArmorReport) : List ArmorReport → ArmorReport
  | [] => best
  | a :: rest => if best.Sale.High < a.Sale.High then pickHighAux a rest else pickHighAux best rest

/-- Go `pickBestByHighSale` (zero `ArmorReport` on the empty list). -/
def pickBestByHighSale : List ArmorReport → ArmorReport
  | [] => default
  | a :: rest => pickHighAux a rest

/-- Go `ComputeReport`.  `now` is the wall-clock instant read by
`time.Since(state.FetchedAt)`; `age` stays `0` when the timestamp is the
zero time. -/
def ComputeReport (state : AppState) (now : Int) : Report :=
  let age : Int := if state.FetchedAt = 0 then 0 else now - state.FetchedAt
  let fresh : Bool := decide (state.FetchedAt ≠ 0) && decide (age ≤ cacheTTL)
  let ingredientCost : PriceTriple :=
    { Low := shaleNeeded * state.Shale.Low + shardsNeeded * state.Shard.Low,
      Avg := shaleNeeded * state.Shale.Avg + shardsNeeded * state.Shard.Avg,
      High := shaleNeeded * state.Shale.High + shardsNeeded * state.Shard.High }
  let armorReports := state.Armors.map (fun a => computeArmor a ingredientCost)
  { Version := version, Mode := state.Mode, FetchedAt := state.FetchedAt,
    CacheAge := age, CacheFresh := fresh,
    Shale := state.Shale, Shard := state.Shard,
    IngredientCost := ingredientCost, Armors := armorReports,
    BestByAvgProfit := pickBestByAvgProfit armorReports,
    BestByHighSale := pickBestByHighSale armorReports }

/-- Character-level model of Go `strings.Split(s, ".")` (single-character
separator): splits at every dot, keeping empty pieces. -/
def splitDotAux : List Char → List Char → List String
  | [], acc => [String.mk acc.reverse]
  | c :: rest, acc =>
    if c = '.' then String.mk acc.reverse :: splitDotAux rest []
    else splitDotAux rest (c :: acc)

/-- Go `strings.Split(field, ".")`. -/
def splitDot (s : String) : List String := splitDotAux s.data []

/-- The `setTriple` closure inside Go `ApplyManualSet`: empty component sets
all three members, `high`/`low`/`avg` set one, anything else errors. -/
def setTriple (component : String) (val : Int) (t : PriceTriple) : Except String PriceTriple :=
  if component = "" then Except.ok { High := val, Low := val, Avg := val }
  else if component = "high" then Except.ok { t with High := val }
  else if component = "low" then Except.ok { t with Low := val }
  else if component = "avg" then Except.ok { t with Avg := val }
  else Except.error "unknown component (use high|low|avg)"

/-- Index of the Go map literal `{"armor1": 0, "armor2": 1, "armor3": 2}`. -/
def armorIdx (target : String) : Nat :=
  if target = "armor1" then 0 else if target = "armor2" then 1 else 2

/-- Go `ApplyManualSet(state *AppState, field string, val int64) error`.
Returns the state after the call (the Go code mutates through the pointer)
together with `some errorMessage` when the Go function returns a non-nil
error.  No error branch of the Go code writes any field before returning,
which the embedding mirrors by returning the input state there. -/
def ApplyManualSet (state : AppState) (field : String) (val : Int) : AppState × Option String :=
  let parts := splitDot field
  let target := parts.headD ""
  if 2 < parts.length then (state, some "invalid field format")
  else
    let component := if parts.length = 2 then (parts.getD 1 "") else ""
    if target = "shale" then
      match setTriple component val state.Shale with
      | Except.ok t => ({ state with Shale := t }, none)
      | Except.error e => (state, some e)
    else if target = "shard" then
      match setTriple component val state.Shard with
      | Except.ok t => ({ state with Shard := t }, none)
      | Except.error e => (state, some e)
    else if target = "armor1" ∨ target = "armor2" ∨ target = "armor3" then
      if state.Armors.length < 3 then (state, some "armor list not initialized")
      else
        let idx := armorIdx target
        let a := state.Armors.getD idx default
        match setTriple component val a.Price with
        | Except.ok t => ({ state with Armors := state.Armors.set idx { a with Price := t } }, none)
        | Except.error e => (state, some e)
    else (state, some "unknown field (use shale, shard, armor1, armor2, armor3)")

/-- ASCII subset of Go `unicode.IsSpace`, enough for `strings.TrimSpace` on
keyboard input (space, tab, newline, vertical tab, form feed, carriage
return). -/
def goIsSpace (c : Char) : Bool :=
  c == ' ' || c == '\t' || c == '\n' || c == '\r' || c == Char.ofNat 11 || c == Char.ofNat 12

/-- Go `strings.TrimSpace` on the character list. -/
def trimSpace (l : List Char) : List Char :=
  ((l.dropWhile goIsSpace).reverse.dropWhile goIsSpace).reverse

/-- Decimal digit run → natural value. -/
def digitsVal (l : List Char) : Nat :=
  l.foldl (fun n c => 10 * n + (c.toNat - 48)) 0

/-- Model of Go `strconv.ParseFloat` restricted to plain decimal literals
(optional sign, digits with at most one dot, at least one digit).  The exact
decimal value is represented as a pair `(m, d)` standing for `m / 10^d`:
`"1.25"` parses to `(125, 2)`, `"-2.5"` to `(-25, 1)`.  The exotic parts of
`ParseFloat`'s grammar (exponents, hex floats, `inf`/`nan`, digit-separating
underscores) are not reachable from the spec's input class and are not
modelled; on this decimal fragment at the program's magnitudes the `float64`
value is exact. -/
def parseFloatModel (cs : List Char) : Option (Int × Nat) :=
  let signRest : Int × List Char :=
    match cs with
    | '+' :: r => (1, r)
    | '-' :: r => (-1, r)
    | r => (1, r)
  let sign := signRest.1
  let rest := signRest.2
  let intPart := rest.takeWhile Char.isDigit
  let rest2 := rest.dropWhile Char.isDigit
  match rest2 with
  | [] => if intPart.isEmpty then none else some (sign * (digitsVal intPart : Int), 0)
  | '.' :: frac =>
    if frac.all Char.isDigit ∧ intPart.length + frac.length ≠ 0 then
      some (sign * (digitsVal (intPart ++ frac) : Int), frac.length)
    else none
  | _ => none

/-- Go `math.Round` applied to the exact rational `n / den`: round to the
nearest integer, halves away from zero (`den` positive). -/
def roundHalfAway (n : Int) (den : Nat) : Int :=
  if 0 ≤ n then (2 * n + den) / (2 * den) else -((2 * (-n) + den) / (2 * den))

/-- Magnitude suffix step of Go `parseGP`: `k`/`m`/`b` multiplier and the
remaining characters. -/
def stripSuffix (cs : List Char) : Int × List Char :=
  match cs.getLast? with
  | some 'k' => (1000, cs.dropLast)
  | some 'm' => (1000000, cs.dropLast)
  | some 'b' => (1000000000, cs.dropLast)
  | _ => (1, cs)

/-- Go `parseGP`: lowercase, trim, drop commas, strip the magnitude suffix,
parse the rest as a decimal `m / 10^d`, scale by the multiplier and round
(`none` = the Go call returns an error). -/
def parseGP (input : String) : Option Int :=
  let cs := (trimSpace (input.data.map Char.toLower)).filter (fun c => !(c == ','))
  let ms := stripSuffix cs
  match parseFloatModel ms.2 with
  | none => none
  | some md => some (roundHalfAway (md.1 * ms.1) (10 ^ md.2))

/-! Concrete snapshots used by counterexamples and witnesses. -/

/-- A fetched snapshot (non-zero timestamp) with small prices. -/
def sClock : AppState :=
  { Shale := { High := 3, Low := 1, Avg := 2 },
    Shard := { High := 30, Low := 10, Avg := 20 },
    Armors := [{ Name := "Oathplate Helmet", ItemID := 30750,
                 Price := { High := 5, Low := 3, Avg := 4 } }],
    FetchedAt := 1, Mode := "api" }

/-- The spec's ingredient-cost example: A = (low 10, avg 20, high 30),
B = (low 100, avg 150, high 200). -/
def sCost : AppState :=
  { Shale := { High := 30, Low := 10, Avg := 20 },
    Shard := { High := 200, Low := 100, Avg := 150 },
    Armors := [], FetchedAt := 0, Mode := "manual" }

/-- One crafted item whose low sale price is 1,000,000 and avg sale price 1,
with zero ingredient prices. -/
def sTax : AppState :=
  { Shale := { High := 0, Low := 0, Avg := 0 },
    Shard := { High := 0, Low := 0, Avg := 0 },
    Armors := [{ Name := "Oathplate Helmet", ItemID := 30750,
                 Price := { High := 0, Low := 1000000, Avg := 1 } }],
    FetchedAt := 0, Mode := "manual" }

/-- Fetched snapshot with timestamp 7, for the freshness boundary. -/
def sFresh : AppState :=
  { Shale := default, Shard := default, Armors := [], FetchedAt := 7, Mode := "api" }

/-- Two crafted items with identical avg-tier profit (a tie). -/
def sTie : AppState :=
  { Shale := { High := 0, Low := 0, Avg := 0 },
    Shard := { High := 0, Low := 0, Avg := 0 },
    Armors := [{ Name := "Oathplate Helmet", ItemID := 30750,
                 Price := { High := 0, Low := 0, Avg := 50 } },
               { Name := "Oathplate Chestplate", ItemID := 30753,
                 Price := { High := 0, Low := 0, Avg := 50 } }],
    FetchedAt := 0, Mode := "manual" }

/-- Snapshot with an uninitialized (empty) crafted-item list. -/
def sNoArmors : AppState :=
  { Shale := default, Shard := default, Armors := [], FetchedAt := 0, Mode := "manual" }

/-- Never-fetched snapshot with one crafted item. -/
def sNeverFetched : AppState :=
  { Shale := { High := 3, Low := 1, Avg := 2 },
    Shard := { High := 30, Low := 10, Avg := 20 },
    Armors := [{ Name := "Oathplate Legs", ItemID := 30756,
                 Price := { High := 9, Low := 7, Avg := 8 } }],
    FetchedAt := 0, Mode := "manual" }

/-- `List.getD` through `List.map`, at an index inside the list. -/
theorem getD_map_of_lt {α β : Type} (f : α → β) (d : α) (e : β) :
    ∀ (l : List α) (i : Nat), i < l.length → (l.map f).getD i e = f (l.getD i d) := by
  intro l
  induction l with
  | nil => intro i h; simp at h
  | cons a t ih =>
    intro i h
    cases i with
    | zero => rfl
    | succ n =>
      simp only [List.map_cons, List.getD_cons_succ]
      exact ih n (Nat.lt_of_succ_lt_succ h)

/-- C1 counterexample: `ComputeReport` reads the wall clock through
`time.Since`, so the same snapshot computed at two different instants yields
different Reports (`CacheAge` and here also `CacheFresh` differ). -/
theorem C1_clock_counterexample :
    ComputeReport sClock 1 ≠ ComputeReport sClock (1 + cacheTTL + 1000000000) := by
  decide

/-- C1 (amended): the report computation is deterministic in the pair
(snapshot, clock instant); the clock influences only the `CacheAge` and
`CacheFresh` fields, every other Report field is determined by the snapshot
alone, and for a never-fetched snapshot (zero timestamp) the whole Report is
clock-independent. -/
theorem C1_determinism_amended (s : AppState) (n1 n2 : Int) :
    (s.FetchedAt = 0 → ComputeReport s n1 = ComputeReport s n2) ∧
    (ComputeReport s n1).Version = (ComputeReport s n2).Version ∧
    (ComputeReport s n1).Mode = (ComputeReport s n2).Mode ∧
    (ComputeReport s n1).FetchedAt = (ComputeReport s n2).FetchedAt ∧
    (ComputeReport s n1).Shale = (ComputeReport s n2).Shale ∧
    (ComputeReport s n1).Shard = (ComputeReport s n2).Shard ∧
    (ComputeReport s n1).IngredientCost = (ComputeReport s n2).IngredientCost ∧
    (ComputeReport s n1).Armors = (ComputeReport s n2).Armors ∧
    (ComputeReport s n1).BestByAvgProfit = (ComputeReport s n2).BestByAvgProfit ∧
    (ComputeReport s n1).BestByHighSale = (ComputeReport s n2).BestByHighSale := by
  refine ⟨fun h => ?_, rfl, rfl, rfl, rfl, rfl, rfl, rfl, rfl, rfl⟩
  simp [ComputeReport, h]

/-- Witness for C1 (amended), at the never-fetched snapshot. -/
theorem C1_determinism_amended_witness :
    sNeverFetched.FetchedAt = 0 ∧
    ComputeReport sNeverFetched 5 = ComputeReport sNeverFetched 999999999999999 :=
  ⟨rfl, (C1_determinism_amended sNeverFetched 5 999999999999999).1 rfl⟩

/-- C2: setting the full ingredient-A (shale) triple collapses
high = low = avg = 500; a subsequent `.high` set changes only the high
member and no other snapshot field.  (The spec's `ingredientA` is the
source's `shale` target.) -/
theorem C2_full_set_then_high (s : AppState) :
    (ApplyManualSet s "shale" 500).2 = none ∧
    (ApplyManualSet s "shale" 500).1 =
      { s with Shale := { High := 500, Low := 500, Avg := 500 } } ∧
    (ApplyManualSet (ApplyManualSet s "shale" 500).1 "shale.high" 700).2 = none ∧
    (ApplyManualSet (ApplyManualSet s "shale" 500).1 "shale.high" 700).1 =
      { s with Shale := { High := 700, Low := 500, Avg := 500 } } :=
  ⟨rfl, rfl, rfl, rfl⟩

/-- C4: each tier of the report's ingredient cost is
`2520 * shale[tier] + 450 * shard[tier]` (spec: `ingredientQtyA = 2520`,
`ingredientQtyB = 450`), and the spec's concrete example evaluates to
(low 70,200; avg 117,900; high 165,600). -/
theorem C4_ingredient_cost :
    (∀ (s : AppState) (now : Int),
      (ComputeReport s now).IngredientCost =
        { High := 2520 * s.Shale.High + 450 * s.Shard.High,
          Low := 2520 * s.Shale.Low + 450 * s.Shard.Low,
          Avg := 2520 * s.Shale.Avg + 450 * s.Shard.Avg }) ∧
    (ComputeReport sCost 0).IngredientCost =
      { High := 165600, Low := 70200, Avg := 117900 } :=
  ⟨fun _ _ => rfl, by decide⟩

/-- C5: with a present (non-zero) fetch timestamp, the report is fresh
exactly when `now - FetchedAt ≤ cacheTTL` (20 minutes), an inclusive bound. -/
theorem C5_freshness_boundary (s : AppState) (now : Int) (h : s.FetchedAt ≠ 0) :
    (ComputeReport s now).CacheFresh = true ↔ now - s.FetchedAt ≤ cacheTTL := by
  simp [ComputeReport, h]

/-- Witness for C5: age exactly 20 minutes is fresh, 20 minutes + 1 second
is stale. -/
theorem C5_freshness_boundary_witness :
    (ComputeReport sFresh (7 + cacheTTL)).CacheFresh = true ∧
    (ComputeReport sFresh (7 + cacheTTL + 1000000000)).CacheFresh = false := by
  constructor
  · exact (C5_freshness_boundary sFresh (7 + cacheTTL) (by decide)).mpr (by decide)
  · have h := C5_freshness_boundary sFresh (7 + cacheTTL + 1000000000) (by decide)
    revert h
    decide

/-- C8: an unrecognized target, an unrecognized component suffix, or a
crafted-item slot while the list has fewer than 3 entries all make
`ApplyManualSet` return an error with the snapshot deeply unchanged. -/
theorem C8_unknown_field_atomic (s : AppState) (v : Int) :
    ((ApplyManualSet s "ingredientC" v).1 = s ∧
      (ApplyManualSet s "ingredientC" v).2.isSome = true) ∧
    ((ApplyManualSet s "shale.median" v).1 = s ∧
      (ApplyManualSet s "shale.median" v).2.isSome = true) ∧
    (s.Armors.length < 3 →
      (ApplyManualSet s "armor1" v).1 = s ∧
      (ApplyManualSet s "armor1" v).2.isSome = true) := by
  refine ⟨⟨rfl, rfl⟩, ⟨rfl, rfl⟩, fun h => ?_⟩
  simp only [ApplyManualSet, splitDot, splitDotAux]
  norm_num
  simp [h]

/-- Witness for C8, at a snapshot whose crafted-item list is empty. -/
theorem C8_unknown_field_atomic_witness :
    sNoArmors.Armors.length < 3 ∧
    (ApplyManualSet sNoArmors "armor1" 1).1 = sNoArmors ∧
    (ApplyManualSet sNoArmors "armor1" 1).2.isSome = true :=
  ⟨by decide, (C8_unknown_field_atomic sNoArmors 1).2.2 (by decide)⟩

/-- C9: the GP parser's magnitude suffixes, comma stripping, fractional
decimals with half-away-from-zero rounding, and rejection of non-decimal
remainders. -/
theorem C9_parseGP_examples :
    parseGP "125k" = some 125000 ∧
    parseGP "1.25m" = some 1250000 ∧
    parseGP "1,250,000" = some 1250000 ∧
    parseGP "2b" = some 2000000000 ∧
    parseGP "2.5" = some 3 ∧
    parseGP "-2.5" = some (-3) ∧
    parseGP "abc" = none ∧
    parseGP "" = none := by
  decide

/-- C10: a zero (never-fetched) timestamp yields `CacheFresh = false` and
`CacheAge = 0`; the report echoes the snapshot's ingredient triples and its
crafted-item list has the same length and order (same name, id and sale
triple slot by slot) for any list length. -/
theorem C10_never_fetched (s : AppState) (now : Int) (h : s.FetchedAt = 0) :
    (ComputeReport s now).CacheFresh = false ∧
    (ComputeReport s now).CacheAge = 0 ∧
    (ComputeReport s now).Shale = s.Shale ∧
    (ComputeReport s now).Shard = s.Shard ∧
    (ComputeReport s now).Armors.length = s.Armors.length ∧
    (ComputeReport s now).Armors.map (fun a => a.Name) = s.Armors.map (fun a => a.Name) ∧
    (ComputeReport s now).Armors.map (fun a => a.ItemID) = s.Armors.map (fun a => a.ItemID) ∧
    (ComputeReport s now).Armors.map (fun a => a.Sale) = s.Armors.map (fun a => a.Price) := by
  refine ⟨?_, ?_, rfl, rfl, ?_, ?_, ?_, ?_⟩ <;>
    simp [ComputeReport, computeArmor, h, List.map_map, Function.comp]

/-- Witness for C10 at a concrete never-fetched snapshot. -/
theorem C10_never_fetched_witness :
    sNeverFetched.FetchedAt = 0 ∧
    (ComputeReport sNeverFetched 123456789).CacheFresh = false ∧
    (ComputeReport sNeverFetched 123456789).CacheAge = 0 ∧
    (ComputeReport sNeverFetched 123456789).Armors.map (fun a => a.Name) =
      sNeverFetched.Armors.map (fun a => a.Name) := by
  have h := C10_never_fetched sNeverFetched 123456789 rfl
  exact ⟨rfl, h.1, h.2.1, h.2.2.2.2.2.1⟩


/-- C3: each crafted-item report case pairs a tier's sale price with the
ingredient cost of the same tier: tax is `tdiv (sale * 2) 100`, net is
`sale - tax`, profit is `net - cost[same tier]`, in tier order low, avg,
high. -/
theorem C3_tax_profit_tier_pairing (s : AppState) (now : Int) (i : Nat)
    (h : i < s.Armors.length) :
    ((ComputeReport s now).Armors.getD i default).Cases =
      [ { SaleLabel := "low",
          SalePrice := (s.Armors.getD i default).Price.Low,
          TaxPaid := Int.tdiv ((s.Armors.getD i default).Price.Low * 2) 100,
          NetAfterTax := (s.Armors.getD i default).Price.Low -
            Int.tdiv ((s.Armors.getD i default).Price.Low * 2) 100,
          Profit := (s.Armors.getD i default).Price.Low -
            Int.tdiv ((s.Armors.getD i default).Price.Low * 2) 100 -
            (ComputeReport s now).IngredientCost.Low },
        { SaleLabel := "avg",
          SalePrice := (s.Armors.getD i default).Price.Avg,
          TaxPaid := Int.tdiv ((s.Armors.getD i default).Price.Avg * 2) 100,
          NetAfterTax := (s.Armors.getD i default).Price.Avg -
            Int.tdiv ((s.Armors.getD i default).Price.Avg * 2) 100,
          Profit := (s.Armors.getD i default).Price.Avg -
            Int.tdiv ((s.Armors.getD i default).Price.Avg * 2) 100 -
            (ComputeReport s now).IngredientCost.Avg },
        { SaleLabel := "high",
          SalePrice := (s.Armors.getD i default).Price.High,
          TaxPaid := Int.tdiv ((s.Armors.getD i default).Price.High * 2) 100,
          NetAfterTax := (s.Armors.getD i default).Price.High -
            Int.tdiv ((s.Armors.getD i default).Price.High * 2) 100,
          Profit := (s.Armors.getD i default).Price.High -
            Int.tdiv ((s.Armors.getD i default).Price.High * 2) 100 -
            (ComputeReport s now).IngredientCost.High } ] := by
  have hm : (ComputeReport s now).Armors =
      s.Armors.map (fun a => computeArmor a ((ComputeReport s now).IngredientCost)) := rfl
  rw [hm, getD_map_of_lt _ default default s.Armors i h]
  rfl

/-- Witness for C3: sale 1,000,000 → tax 20,000 and net 980,000; sale 1 →
tax 0 (truncation). -/
theorem C3_tax_profit_tier_pairing_witness :
    0 < sTax.Armors.length ∧
    ((ComputeReport sTax 0).Armors.getD 0 default).Cases =
      [ { SaleLabel := "low", SalePrice := 1000000, TaxPaid := 20000,
          NetAfterTax := 980000, Profit := 980000 },
        { SaleLabel := "avg", SalePrice := 1, TaxPaid := 0,
          NetAfterTax := 1, Profit := 1 },
        { SaleLabel := "high", SalePrice := 0, TaxPaid := 0,
          NetAfterTax := 0, Profit := 0 } ] := by
  constructor
  · decide
  · have h := C3_tax_profit_tier_pairing sTax 0 0 (by decide)
    revert h
    decide

/-- The `pickBestByAvgProfit` loop keeps the first strict maximum: starting
from `b`, the chosen element splits `b :: l` into a strictly-smaller prefix
and a no-larger suffix (by avg-tier profit). -/
theorem pickBestAux_first_max :
    ∀ (l : List ArmorReport) (b : ArmorReport),
      ∃ pre post,
        b :: l = pre ++ pickBestAux b (profitForLabel b "avg") l :: post ∧
        profitForLabel b "avg" ≤
          profitForLabel (pickBestAux b (profitForLabel b "avg") l) "avg" ∧
        (∀ x ∈ pre, profitForLabel x "avg" <
          profitForLabel (pickBestAux b (profitForLabel b "avg") l) "avg") ∧
        (∀ x ∈ post, profitForLabel x "avg" ≤
          profitForLabel (pickBestAux b (profitForLabel b "avg") l) "avg") := by
  intro l
  induction l with
  | nil =>
    intro b
    exact ⟨[], [], rfl, le_refl _, by simp, by simp⟩
  | cons a rest ih =>
    intro b
    by_cases hab : profitForLabel b "avg" < profitForLabel a "avg"
    · have hunf : pickBestAux b (profitForLabel b "avg") (a :: rest) =
          pickBestAux a (profitForLabel a "avg") rest := by
        simp [pickBestAux, hab]
      obtain ⟨pre, post, hdec, hle, hpre, hpost⟩ := ih a
      rw [hunf]
      refine ⟨b :: pre, post, ?_, le_of_lt (lt_of_lt_of_le hab hle), ?_, hpost⟩
      · rw [List.cons_append]
        exact congrArg (List.cons b) hdec
      · intro x hx
        rcases List.mem_cons.mp hx with hx | hx
        · subst hx
          exact lt_of_lt_of_le hab hle
        · exact hpre x hx
    · have hba : profitForLabel a "avg" ≤ profitForLabel b "avg" := le_of_not_lt hab
      have hunf : pickBestAux b (profitForLabel b "avg") (a :: rest) =
          pickBestAux b (profitForLabel b "avg") rest := by
        simp [pickBestAux, hab]
      obtain ⟨pre, post, hdec, hle, hpre, hpost⟩ := ih b
      rw [hunf]
      cases pre with
      | nil =>
        simp only [List.nil_append] at hdec
        obtain ⟨hb1, hb2⟩ := List.cons_eq_cons.mp hdec
        refine ⟨[], a :: post, ?_, hle, by simp, ?_⟩
        · simp only [List.nil_append]
          rw [← hb1, ← hb2]
        · intro x hx
          rcases List.mem_cons.mp hx with hx | hx
          · subst hx
            exact le_trans hba hle
          · exact hpost x hx
      | cons q pre0 =>
        rw [List.cons_append] at hdec
        obtain ⟨hq, hrest⟩ := List.cons_eq_cons.mp hdec
        have hbres : profitForLabel b "avg" <
            profitForLabel (pickBestAux b (profitForLabel b "avg") rest) "avg" := by
          have hmem := hpre q (List.mem_cons_self q pre0)
          rwa [← hq] at hmem
        refine ⟨b :: a :: pre0, post, ?_, hle, ?_, hpost⟩
        · rw [List.cons_append, List.cons_append]
          exact congrArg (List.cons b) (congrArg (List.cons a) hrest)
        · intro x hx
          rcases List.mem_cons.mp hx with hx | hx
          · subst hx
            exact hbres
          · rcases List.mem_cons.mp hx with hx | hx
            · subst hx
              exact lt_of_le_of_lt hba hbres
            · exact hpre x (List.mem_cons_of_mem q hx)

/-- C6: on a non-empty crafted-item list the best-by-avg-profit
recommendation is the first list element attaining the maximal avg-tier
profit: everything before it is strictly smaller, everything after it is no
larger. -/
theorem C6_best_by_avg_profit (s : AppState) (now : Int) (h : s.Armors ≠ []) :
    ∃ pre post,
      (ComputeReport s now).Armors =
        pre ++ (ComputeReport s now).BestByAvgProfit :: post ∧
      (∀ x ∈ pre, profitForLabel x "avg" <
        profitForLabel ((ComputeReport s now).BestByAvgProfit) "avg") ∧
      (∀ x ∈ post, profitForLabel x "avg" ≤
        profitForLabel ((ComputeReport s now).BestByAvgProfit) "avg") := by
  cases harm : (ComputeReport s now).Armors with
  | nil =>
    exfalso
    apply h
    have hm : (ComputeReport s now).Armors =
        s.Armors.map (fun a => computeArmor a ((ComputeReport s now).IngredientCost)) := rfl
    rw [hm] at harm
    exact List.map_eq_nil_iff.mp harm
  | cons a rest =>
    have hbest : (ComputeReport s now).BestByAvgProfit =
        pickBestAux a (profitForLabel a "avg") rest := by
      have h0 : (ComputeReport s now).BestByAvgProfit =
          pickBestByAvgProfit ((ComputeReport s now).Armors) := rfl
      rw [harm] at h0
      exact h0
    obtain ⟨pre, post, hdec, hle, hpre, hpost⟩ := pickBestAux_first_max rest a
    rw [hbest]
    exact ⟨pre, post, hdec, hpre, hpost⟩

/-- Witness for C6 at a snapshot with two crafted items of identical
avg-tier profit: the engine picks the first in list order. -/
theorem C6_best_by_avg_profit_witness :
    sTie.Armors ≠ [] ∧
    (∃ pre post,
      (ComputeReport sTie 0).Armors =
        pre ++ (ComputeReport sTie 0).BestByAvgProfit :: post ∧
      (∀ x ∈ pre, profitForLabel x "avg" <
        profitForLabel ((ComputeReport sTie 0).BestByAvgProfit) "avg") ∧
      (∀ x ∈ post, profitForLabel x "avg" ≤
        profitForLabel ((ComputeReport sTie 0).BestByAvgProfit) "avg")) ∧
    (ComputeReport sTie 0).BestByAvgProfit.Name = "Oathplate Helmet" :=
  ⟨by decide, C6_best_by_avg_profit sTie 0 (by decide), by decide⟩

/-- C7: an item's best case is a maximum-profit member of its three tier
cases, and ties go to the first case in tier order low, avg, high: if the
best case is the avg case, the low case is strictly smaller; if it is the
high case, both low and avg are strictly smaller. -/
theorem C7_best_case_stable_first_max (a : ArmorOption) (ic : PriceTriple) :
    (computeArmor a ic).BestCase ∈ (computeArmor a ic).Cases ∧
    (∀ c ∈ (computeArmor a ic).Cases, c.Profit ≤ (computeArmor a ic).BestCase.Profit) ∧
    ((computeArmor a ic).BestCase.SaleLabel = "low" ∨
     ((computeArmor a ic).BestCase.SaleLabel = "avg" ∧
       profitForLabel (computeArmor a ic) "low" < (computeArmor a ic).BestCase.Profit) ∨
     ((computeArmor a ic).BestCase.SaleLabel = "high" ∧
       profitForLabel (computeArmor a ic) "low" < (computeArmor a ic).BestCase.Profit ∧
       profitForLabel (computeArmor a ic) "avg" < (computeArmor a ic).BestCase.Profit)) := by
  simp only [computeArmor, computeCase, profitForLabel, profitForLabelAux,
    List.foldl_cons, List.foldl_nil]
  by_cases h1 : a.Price.Low - Int.tdiv (a.Price.Low * 2) 100 - ic.Low <
      a.Price.Avg - Int.tdiv (a.Price.Avg * 2) 100 - ic.Avg
  · by_cases h2 : a.Price.Avg - Int.tdiv (a.Price.Avg * 2) 100 - ic.Avg <
        a.Price.High - Int.tdiv (a.Price.High * 2) 100 - ic.High
    · simp [h1, h2]
      omega
    · simp [h1, h2]
      omega
  · by_cases h3 : a.Price.Low - Int.tdiv (a.Price.Low * 2) 100 - ic.Low <
        a.Price.High - Int.tdiv (a.Price.High * 2) 100 - ic.High
    · simp [h1, h3]
      omega
    · simp [h1, h3]
      omega
